import Mathlib

/-
Shallow embedding of the session-store core of the TenCyclesofFate backend:
  src/backend/app/db.py            (connection provider)
  src/backend/app/state_manager.py (session store)

Modelling conventions:
  * JSON values are the inductive `Json`; a session document (a Python dict
    decoded from JSON) is a `Doc`, an association list with unique keys.
  * Python's `json` codec is treated as the external collaborator it is and
    modelled by its contract: a stored `session_data` blob is `Blob.empty`
    (empty string / NULL), `Blob.valid d` (non-empty text that `json.loads`
    decodes to the object `d` — in particular any text produced by
    `json.dumps` on a document, which round-trips), or `Blob.invalid raw`
    (non-empty text on which `json.loads` raises).  Blobs decoding to
    non-object JSON values never arise from this store's own writes and are
    outside the scope of the modelled behaviours.
  * Timestamps (`time.time()`) are an abstract `Int` supplied as `now`.
  * Failure of the external backend calls (connection acquisition, dumps,
    cursor creation, execute, commit) is injected through explicit boolean
    fault flags; each flag `true` means the corresponding call succeeds.
  * The two real-time sinks (`websocket_manager.send_json_to_player` and
    `live_manager.broadcast_state_update`, excluded by the spec as external
    collaborators) are modelled by the list of dispatch events handed to
    them; `security.encrypt_player_id` is an abstract function parameter.
-/

namespace TenCycles

/-- JSON values, as produced by `json.loads`. -/
inductive Json where
  | null
  | bool (b : Bool)
  | num (n : Int)
  | str (s : String)
  | arr (items : List Json)
  | obj (fields : List (String × Json))

/-- A session document: a Python dict with string keys (unique) decoded from
JSON, in insertion order. -/
abbrev Doc := List (String × Json)

/-- Python dict lookup `d[k]` / `d.get(k)` on a dict with unique keys. -/
def docGet : Doc → String → Option Json
  | [], _ => none
  | kv :: rest, k => if kv.1 = k then some kv.2 else docGet rest k

/-- Python dict assignment `d[k] = v` on a dict with unique keys: overwrite
in place if `k` is present, otherwise append the new binding. -/
def setKey : Doc → String → Json → Doc
  | [], k, v => [(k, v)]
  | kv :: rest, k, v => if kv.1 = k then (k, v) :: rest else kv :: setKey rest k v

/-- A stored `session_data` blob, modelled by what `json.loads` does to it
(see the header comment). -/
inductive Blob where
  | empty
  | valid (d : Doc)
  | invalid (raw : String)

/-- The `game_sessions` table: rows keyed by `player_id` (primary key, so
keys are unique), each holding a `session_data` blob. -/
abbrev DbState := List (String × Blob)

/-- Primary-key lookup `SELECT session_data FROM game_sessions WHERE
player_id = %s` (state_manager.py line 27). -/
def dbLookup : DbState → String → Option Blob
  | [], _ => none
  | row :: rest, pid => if row.1 = pid then some row.2 else dbLookup rest pid

/-- The upsert `INSERT ... ON DUPLICATE KEY UPDATE session_data = VALUES(...)`
(state_manager.py lines 60-64): overwrite the blob of an existing row for the
primary key, otherwise insert a new row. -/
def upsert : DbState → String → Blob → DbState
  | [], pid, b => [(pid, b)]
  | row :: rest, pid, b => if row.1 = pid then (pid, b) :: rest else row :: upsert rest pid b

-- ---------------------------------------------------------------------------
-- db.py: connection provider
-- ---------------------------------------------------------------------------

/-- The scheme of the parsed `DATABASE_URL` (db.py lines 40-41). -/
inductive Scheme where
  | mysql
  | sqlite
  | other (s : String)

/-- Environment of `get_db_connection` (db.py lines 37-62): which dialect the
URL selects, whether the module-global `db_pool` was ever successfully
initialised, and whether the two fallible backend calls succeed. -/
structure ConnEnv where
  scheme : Scheme
  poolReady : Bool
  poolBorrowOk : Bool
  sqliteConnectOk : Bool

/-- A live database handle, tagged by dialect. -/
inductive Handle where
  | sqliteConn
  | mysqlConn

/-- db.py `get_db_connection` (lines 37-62).  The sqlite branch creates a
direct handle (`sqlite3.connect`, raising → caught → `None`); the mysql
branch returns `None` if `db_pool is None`, else borrows from the pool
(raising → caught → `None`); any other scheme logs and returns `None`. -/
def get_db_connection (e : ConnEnv) : Option Handle :=
  match e.scheme with
  | Scheme.sqlite => if e.sqliteConnectOk then some Handle.sqliteConn else none
  | Scheme.mysql =>
      if e.poolReady then
        if e.poolBorrowOk then some Handle.mysqlConn else none
      else none
  | Scheme.other _ => none

-- ---------------------------------------------------------------------------
-- state_manager.py: session store
-- ---------------------------------------------------------------------------

/-- Fault flags for one `get_session` call: whether `db.get_db_connection()`
returns a handle (line 17) and whether cursor creation / `execute` /
`fetchone` (lines 24-28) succeed.  Any exception in the `try` block is caught
and converted to `None` (lines 35-37). -/
structure GetFaults where
  connOk : Bool
  queryOk : Bool

/-- state_manager.py `get_session` (lines 15-43).  Returns `none` when the
connection is unavailable, when the query raises, when no row matches, when
the stored blob is empty/NULL (line 32 `if session_data`), and also — because
the `except` clause catches the `json.loads` error and returns `None` — when
the blob is non-empty but not valid JSON. -/
def get_session (gf : GetFaults) (db : DbState) (pid : String) : Option Doc :=
  if gf.connOk then
    if gf.queryOk then
      match dbLookup db pid with
      | none => none
      | some Blob.empty => none
      | some (Blob.valid d) => some d
      | some (Blob.invalid _) => none
    else none
  else none

/-- Fault flags for one `save_session` call, one per fallible backend call in
source order: `db.get_db_connection()` (line 50), `json.dumps` (line 56),
`conn.cursor()` (line 57), `cursor.execute` (line 65), `conn.commit`
(line 66). -/
structure SaveFaults where
  connOk : Bool
  dumpsOk : Bool
  cursorOk : Bool
  execOk : Bool
  commitOk : Bool

/-- All backend calls succeed. -/
def saveOk : SaveFaults := ⟨true, true, true, true, true⟩

/-- A `get_session` call whose connection and query succeed. -/
def getOk : GetFaults := ⟨true, true⟩

/-- The dialect of the handle `save_session` obtained, which determines the
cleanup performed by its `finally` block (lines 78-83). -/
inductive Dialect where
  | mysql
  | sqlite

/-- Outcome of one `save_session` (or of an operation built on it). -/
structure SaveResult where
  /-- The caller-supplied document object after the call: line 55
  (`session_data["last_modified"] = time.time()`) mutates it in place. -/
  doc : Doc
  /-- The table after the call (committed state). -/
  db : DbState
  /-- Dispatches handed to `websocket_manager.send_json_to_player`
  (lines 69-71), as `(player_id, payload document)` events. -/
  ws : List (String × Doc)
  /-- Dispatches handed to `live_manager.broadcast_state_update` (line 72). -/
  live : List (String × Doc)
  /-- Whether an exception propagated out of `save_session` to the caller. -/
  raised : Bool

/-- Whether the `finally` block of `save_session` (lines 78-83) itself raises
when the `try` body failed before line 57 bound `cursor`: on a MySQL handle
the first branch runs (`conn.is_connected()` holds) and `cursor.close()`
raises `NameError` because `cursor` was never assigned; on a sqlite handle
the `elif` branch only runs `conn.close()`. -/
def finallyRaisesUnboundCursor : Dialect → Bool
  | Dialect.mysql => true
  | Dialect.sqlite => false

/-- state_manager.py `save_session` (lines 46-83).  With no handle it returns
immediately (lines 51-52).  Otherwise it stamps `last_modified` into the
caller's document in place (line 55), serialises, upserts and commits; after
a successful commit it dispatches the updated document to the two real-time
sinks via `asyncio.gather` without awaiting delivery (lines 68-74).  Any
exception in the `try` body is caught and logged (lines 76-77); the `finally`
block then raises `NameError` exactly when `cursor` was never bound (failure
at line 56 or 57) and the handle is a MySQL one.  A failed `execute` or
`commit` leaves the table unchanged (nothing was committed). -/
def save_session (dl : Dialect) (f : SaveFaults) (now : Int) (db : DbState)
    (pid : String) (doc : Doc) : SaveResult :=
  if f.connOk then
    let stamped := setKey doc "last_modified" (Json.num now)
    if f.dumpsOk then
      if f.cursorOk then
        if f.execOk then
          if f.commitOk then
            { doc := stamped
              db := upsert db pid (Blob.valid stamped)
              ws := [(pid, stamped)]
              live := [(pid, stamped)]
              raised := false }
          else { doc := stamped, db := db, ws := [], live := [], raised := false }
        else { doc := stamped, db := db, ws := [], live := [], raised := false }
      else { doc := stamped, db := db, ws := [], live := [],
             raised := finallyRaisesUnboundCursor dl }
    else { doc := stamped, db := db, ws := [], live := [],
           raised := finallyRaisesUnboundCursor dl }
  else { doc := doc, db := db, ws := [], live := [], raised := false }

/-- state_manager.py `create_or_get_session` (lines 85-93): returns the
existing session, or saves an empty dict and returns that same (now mutated)
dict object. -/
def create_or_get_session (dl : Dialect) (gf : GetFaults) (sf : SaveFaults)
    (now : Int) (db : DbState) (pid : String) : SaveResult :=
  match get_session gf db pid with
  | some s => { doc := s, db := db, ws := [], live := [], raised := false }
  | none => save_session dl sf now db pid []

/-- state_manager.py `flag_player_for_punishment` (lines 144-153): `if not
session` is Python truthiness, so both `None` (no session) and the empty dict
take the logged-warning no-op branch; otherwise the `pending_punishment` key
is merged in and the document saved. -/
def flag_player_for_punishment (dl : Dialect) (gf : GetFaults) (sf : SaveFaults)
    (now : Int) (db : DbState) (pid level reason : String) : SaveResult :=
  match get_session gf db pid with
  | none => { doc := [], db := db, ws := [], live := [], raised := false }
  | some s =>
      if s.isEmpty then { doc := s, db := db, ws := [], live := [], raised := false }
      else
        save_session dl sf now db pid
          (setKey s "pending_punishment"
            (Json.obj [("level", Json.str level), ("reason", Json.str reason)]))

/-- Python list slicing `l[-n:]` for a natural `n` (state_manager.py
line 100): for `n = 0` the start index `-0` is `0`, so the WHOLE list is
returned; for `n ≥ 1` the last `min n (length l)` elements are returned. -/
def pySliceLast (l : List α) (n : Nat) : List α :=
  if n = 0 then l else l.drop (l.length - n)

/-- The comprehension `[item["content"] for item in history if
item.get("role") == "user"]` (line 100), including its exceptional paths:
`none` models an uncaught exception (`.get` on a non-dict item raises
`AttributeError`; `item["content"]` on a user-role item without a `content`
key raises `KeyError` — `get_last_n_inputs` has no handler, so these
propagate). -/
def historyUserContents : List Json → Option (List Json)
  | [] => some []
  | item :: rest =>
      match item with
      | Json.obj o =>
          if (match docGet o "role" with
              | some (Json.str r) => r == "user"
              | _ => false : Bool) then
            match docGet o "content" with
            | some c => (historyUserContents rest).map (fun cs => c :: cs)
            | none => none
          else historyUserContents rest
      | _ => none

/-- state_manager.py `get_last_n_inputs` (lines 95-100).  `if not session`
covers both an absent session and one that decoded to `{}`.
`session.get("internal_history", [])` defaults to `[]` when the key is
absent; iterating a non-list value raises (modelled `none`).  The result is
the comprehension above sliced with `[-n:]`. -/
def get_last_n_inputs (gf : GetFaults) (db : DbState) (pid : String) (n : Nat) :
    Option (List Json) :=
  match get_session gf db pid with
  | none => some []
  | some s =>
      if s.isEmpty then some []
      else
        match docGet s "internal_history" with
        | none => some []
        | some (Json.arr items) =>
            (historyUserContents items).map (fun cs => pySliceLast cs n)
        | some _ => none

/-- The same extraction without the final slice: the full, chronologically
ordered list of `content` values of the `role = "user"` history entries (the
value of the line-100 comprehension before `[-n:]` is applied). -/
def userInputsAll (gf : GetFaults) (db : DbState) (pid : String) :
    Option (List Json) :=
  match get_session gf db pid with
  | none => some []
  | some s =>
      if s.isEmpty then some []
      else
        match docGet s "internal_history" with
        | none => some []
        | some (Json.arr items) => historyUserContents items
        | some _ => none

/-- One row summary produced by `get_most_recent_sessions`
(state_manager.py lines 123-127). -/
structure Summary where
  player_id : String
  display_name : String
  last_modified : Json

/-- The display-name truncation of line 121: first and last character joined
by an ellipsis for identifiers longer than two characters, otherwise the
identifier unmodified. -/
def displayNameOf (pid : String) : String :=
  if pid.length > 2 then String.mk [pid.front] ++ "..." ++ String.mk [pid.back]
  else pid

/-- The summary built from one successfully decoded row (lines 117-127):
obfuscated id, truncated display name, and the `last_modified` value embedded
in the decoded document, defaulting to `0`. -/
def summaryOfRow (encrypt : String → String) (pid : String) (d : Doc) : Summary :=
  { player_id := encrypt pid
    display_name := displayNameOf pid
    last_modified := (docGet d "last_modified").getD (Json.num 0) }

/-- The row-processing loop of `get_most_recent_sessions` (lines 115-128).
`json.loads(str(row['session_data']))` is applied to EVERY fetched row with
no per-row handler, inside the single `try` that wraps the whole loop: the
first blob that is empty/NULL or invalid raises, abandoning the partially
built `results` list.  `none` models that exception reaching the `except`
clause. -/
def summariesOfRows (encrypt : String → String) :
    List (String × Blob) → Option (List Summary)
  | [] => some []
  | (pid, blob) :: rest =>
      match blob with
      | Blob.valid d =>
          (summariesOfRows encrypt rest).map (fun rs => summaryOfRow encrypt pid d :: rs)
      | _ => none

/-- state_manager.py `get_most_recent_sessions` (lines 102-137), on the rows
returned by the `ORDER BY last_modified DESC LIMIT %s` query (the query's
ordering and truncation happen in the backend and are taken as the input row
list here; `encrypt` is the external `security.encrypt_player_id`).  On any
exception — in particular a decode failure on ANY single row — the `except`
clause logs and returns the empty list (lines 129-131). -/
def get_most_recent_sessions (encrypt : String → String)
    (rows : List (String × Blob)) : List Summary :=
  match summariesOfRows encrypt rows with
  | some rs => rs
  | none => []

-- ---------------------------------------------------------------------------
-- Helper lemmas
-- ---------------------------------------------------------------------------

theorem docGet_setKey_self (d : Doc) (k : String) (v : Json) :
    docGet (setKey d k v) k = some v := by
  induction d with
  | nil => simp [setKey, docGet]
  | cons kv rest ih =>
      by_cases h : kv.1 = k <;> simp [setKey, docGet, h, ih]

theorem docGet_setKey_ne (d : Doc) (k k' : String) (v : Json) (h : k' ≠ k) :
    docGet (setKey d k v) k' = docGet d k' := by
  induction d with
  | nil => simp [setKey, docGet, Ne.symm h]
  | cons kv rest ih =>
      by_cases hk : kv.1 = k
      · subst hk
        simp [setKey, docGet, Ne.symm h]
      · simp [setKey, docGet, hk, ih]

theorem dbLookup_upsert_self (db : DbState) (pid : String) (b : Blob) :
    dbLookup (upsert db pid b) pid = some b := by
  induction db with
  | nil => simp [upsert, dbLookup]
  | cons row rest ih =>
      by_cases h : row.1 = pid <;> simp [upsert, dbLookup, h, ih]

theorem get_session_none_of_lookup_none (gf : GetFaults) (db : DbState)
    (pid : String) (h : dbLookup db pid = none) :
    get_session gf db pid = none := by
  simp [get_session, h]

theorem pySliceLast_nil (n : Nat) : pySliceLast ([] : List α) n = [] := by
  simp [pySliceLast]

theorem get_last_n_inputs_eq_slice (gf : GetFaults) (db : DbState)
    (pid : String) (n : Nat) :
    get_last_n_inputs gf db pid n
      = (userInputsAll gf db pid).map (fun cs => pySliceLast cs n) := by
  unfold get_last_n_inputs userInputsAll
  cases get_session gf db pid with
  | none => simp [pySliceLast_nil]
  | some s =>
      by_cases hs : s.isEmpty
      · simp [hs, pySliceLast_nil]
      · simp only [hs]
        cases hd : docGet s "internal_history" with
        | none => simp [pySliceLast_nil]
        | some j => cases j <;> simp

theorem summariesOfRows_all_valid (encrypt : String → String)
    (drows : List (String × Doc)) :
    summariesOfRows encrypt (drows.map fun pd => (pd.1, Blob.valid pd.2))
      = some (drows.map fun pd => summaryOfRow encrypt pd.1 pd.2) := by
  induction drows with
  | nil => rfl
  | cons pd rest ih => simp [summariesOfRows, ih]

theorem summariesOfRows_bad_row (encrypt : String → String)
    (rows : List (String × Blob))
    (h : ∃ r ∈ rows, ∀ d, r.2 ≠ Blob.valid d) :
    summariesOfRows encrypt rows = none := by
  induction rows with
  | nil => simp at h
  | cons row rest ih =>
      rcases h with ⟨r, hr, hbad⟩
      rcases List.mem_cons.mp hr with heq | hmem
      · subst heq
        cases hb : r.2 with
        | empty => simp [summariesOfRows, hb]
        | valid d => exact absurd hb (hbad d)
        | invalid raw => simp [summariesOfRows, hb]
      · cases hb : row.2 with
        | empty => simp [summariesOfRows, hb]
        | valid d => simp [summariesOfRows, hb, ih ⟨r, hmem, hbad⟩]
        | invalid raw => simp [summariesOfRows, hb]

-- ---------------------------------------------------------------------------
-- Claim theorems
-- ---------------------------------------------------------------------------

/-- C1: for every playerId and document, `save_session` followed by
`get_session` (no intervening writes, working backend) returns a document
that carries the save-time timestamp under `last_modified` and agrees with
the saved document on every other key. -/
theorem save_then_get_roundtrip (now : Int) (db : DbState) (pid : String)
    (doc : Doc) (k : String) (hk : k ≠ "last_modified") :
    ∃ d, get_session getOk (save_session Dialect.mysql saveOk now db pid doc).db pid = some d
      ∧ docGet d "last_modified" = some (Json.num now)
      ∧ docGet d k = docGet doc k := by
  refine ⟨setKey doc "last_modified" (Json.num now), ?_, ?_, ?_⟩
  · simp [save_session, saveOk, get_session, getOk, dbLookup_upsert_self]
  · exact docGet_setKey_self doc "last_modified" (Json.num now)
  · exact docGet_setKey_ne doc "last_modified" k (Json.num now) hk

/-- C1 witness: the roundtrip at a concrete store, player and document. -/
theorem save_then_get_roundtrip_witness :
    ("x" : String) ≠ "last_modified"
    ∧ ∃ d, get_session getOk
        (save_session Dialect.mysql saveOk 7 [] "p" [("x", Json.num 1)]).db "p" = some d
      ∧ docGet d "last_modified" = some (Json.num 7)
      ∧ docGet d "x" = docGet [("x", Json.num 1)] "x" :=
  ⟨by decide, save_then_get_roundtrip 7 [] "p" [("x", Json.num 1)] "x" (by decide)⟩

/-- C2 counterexample: a stored row whose non-empty blob is not valid JSON
makes `get_session` return `none` — literally the same result as looking up a
player with no row at all, so the caller cannot distinguish the two cases. -/
theorem get_session_decode_vs_absent_cex :
    get_session getOk [("p", Blob.invalid "not json")] "p" = none
    ∧ get_session getOk ([] : DbState) "p" = none
    ∧ get_session getOk [("p", Blob.invalid "not json")] "p"
        = get_session getOk ([] : DbState) "p" :=
  ⟨rfl, rfl, rfl⟩

/-- C2 amended: for every playerId whose stored row exists with a non-empty
blob that is not valid JSON, `get_session` logs the deserialization error and
returns `none` — the same absent result as when no row matches. -/
theorem get_session_decode_failure_none (gf : GetFaults) (db : DbState)
    (pid raw : String) (h : dbLookup db pid = some (Blob.invalid raw)) :
    get_session gf db pid = none := by
  simp [get_session, h]

/-- C2 witness: the amended behaviour at a concrete corrupted row. -/
theorem get_session_decode_failure_none_witness :
    dbLookup [("p", Blob.invalid "not json")] "p" = some (Blob.invalid "not json")
    ∧ get_session getOk [("p", Blob.invalid "not json")] "p" = none :=
  ⟨rfl, get_session_decode_failure_none getOk [("p", Blob.invalid "not json")]
    "p" "not json" rfl⟩

/-- C3 counterexample: with one undecodable row in the fetched set, the whole
listing returns `[]`, even though the second row decodes fine — on its own it
would have produced a summary.  The bad row suppresses the good one. -/
theorem recent_sessions_bad_row_cex :
    get_most_recent_sessions (fun s => s)
      [("ab", Blob.invalid "not json"),
       ("cde", Blob.valid [("last_modified", Json.num 5)])] = []
    ∧ get_most_recent_sessions (fun s => s)
        [("cde", Blob.valid [("last_modified", Json.num 5)])]
      = [{ player_id := "cde", display_name := "c...e", last_modified := Json.num 5 }] :=
  ⟨rfl, rfl⟩

/-- C3 amended: the listing is all-or-nothing.  When every fetched row's blob
decodes, each row contributes its summary in order; when any fetched row's
blob is empty or undecodable, the single try/except wrapping the whole loop
makes the call return the empty list, discarding the decodable rows too. -/
theorem recent_sessions_all_or_nothing (encrypt : String → String)
    (drows : List (String × Doc)) (rows : List (String × Blob))
    (h : ∃ r ∈ rows, ∀ d, r.2 ≠ Blob.valid d) :
    get_most_recent_sessions encrypt (drows.map fun pd => (pd.1, Blob.valid pd.2))
      = drows.map (fun pd => summaryOfRow encrypt pd.1 pd.2)
    ∧ get_most_recent_sessions encrypt rows = [] := by
  constructor
  · simp [get_most_recent_sessions, summariesOfRows_all_valid]
  · simp [get_most_recent_sessions, summariesOfRows_bad_row encrypt rows h]

/-- C3 witness: the amended behaviour at a concrete all-valid row list and a
concrete row list containing an undecodable blob. -/
theorem recent_sessions_all_or_nothing_witness :
    get_most_recent_sessions (fun s => s)
      [("cde", Blob.valid [("last_modified", Json.num 5)])]
      = [summaryOfRow (fun s => s) "cde" [("last_modified", Json.num 5)]]
    ∧ get_most_recent_sessions (fun s => s) [("ab", Blob.invalid "x")] = [] :=
  recent_sessions_all_or_nothing (fun s => s)
    [("cde", [("last_modified", Json.num 5)])] [("ab", Blob.invalid "x")]
    ⟨("ab", Blob.invalid "x"), by simp, fun d => by simp⟩

/-- A stored session matching the spec's own example history: entries
user/"a", bot/"b", user/"c". -/
def historyDbExample : DbState :=
  [("p", Blob.valid [("internal_history", Json.arr
    [Json.obj [("role", Json.str "user"), ("content", Json.str "a")],
     Json.obj [("role", Json.str "bot"), ("content", Json.str "b")],
     Json.obj [("role", Json.str "user"), ("content", Json.str "c")]])])]

/-- C4 counterexample: with `n = 0` the Python slice `[-0:]` keeps the whole
list, so `get_last_n_inputs` returns BOTH user inputs — more than `n`
entries, refuting the claim at `n = 0`. -/
theorem get_last_n_inputs_zero_cex :
    get_last_n_inputs getOk historyDbExample "p" 0
      = some [Json.str "a", Json.str "c"]
    ∧ ¬ ([Json.str "a", Json.str "c"].length ≤ 0) :=
  ⟨rfl, by decide⟩

/-- C4 amended: for every `n ≥ 1`, whenever the full ordered list of
user-role `content` values is `full` and the call returns `l`, `l` is the
last `min n (length full)` of `full` in original order: at most `n` entries,
a suffix of `full`, all of `full` when it is short, and empty when the
session is absent.  (At `n = 0` the code instead returns all of `full`.) -/
theorem get_last_n_inputs_spec (gf : GetFaults) (db : DbState) (pid : String)
    (n : Nat) (full l : List Json) (hn : 1 ≤ n)
    (hfull : userInputsAll gf db pid = some full)
    (hres : get_last_n_inputs gf db pid n = some l) :
    l = full.drop (full.length - n)
    ∧ l.length ≤ n
    ∧ l <:+ full
    ∧ (full.length ≤ n → l = full)
    ∧ (get_session gf db pid = none → l = []) := by
  have hd := get_last_n_inputs_eq_slice gf db pid n
  rw [hfull] at hd
  rw [hd] at hres
  have hn0 : n ≠ 0 := by omega
  have hl : l = full.drop (full.length - n) := by
    have := Option.some.inj hres
    rw [← this]
    simp [pySliceLast, hn0]
  refine ⟨hl, ?_, ?_, ?_, ?_⟩
  · rw [hl, List.length_drop]; omega
  · rw [hl]; exact List.drop_suffix _ _
  · intro hle
    have h0 : full.length - n = 0 := by omega
    rw [hl, h0, List.drop_zero]
  · intro hnone
    have hall : userInputsAll gf db pid = some [] := by
      simp [userInputsAll, hnone]
    have h0 : full = [] := Option.some.inj (hfull.symm.trans hall)
    rw [hl, h0]
    simp

/-- C4 witness: the spec's own example — history user/"a", bot/"b", user/"c"
with `n = 1` yields exactly `["c"]`. -/
theorem get_last_n_inputs_spec_witness :
    (1 : Nat) ≤ 1
    ∧ userInputsAll getOk historyDbExample "p" = some [Json.str "a", Json.str "c"]
    ∧ get_last_n_inputs getOk historyDbExample "p" 1 = some [Json.str "c"]
    ∧ ([Json.str "c"]
         = [Json.str "a", Json.str "c"].drop ([Json.str "a", Json.str "c"].length - 1)
       ∧ [Json.str "c"].length ≤ 1
       ∧ [Json.str "c"] <:+ [Json.str "a", Json.str "c"]
       ∧ ([Json.str "a", Json.str "c"].length ≤ 1 → [Json.str "c"] = [Json.str "a", Json.str "c"])
       ∧ (get_session getOk historyDbExample "p" = none → [Json.str "c"] = [])) :=
  ⟨by decide, rfl, rfl,
   get_last_n_inputs_spec getOk historyDbExample "p" 1
     [Json.str "a", Json.str "c"] [Json.str "c"] (by decide) rfl rfl⟩

/-- C5: each real-time sink is dispatched to at most once per `save_session`;
no dispatch happens on any execution in which connection acquisition,
serialization, cursor creation, the upsert or the commit fails; and a
dispatch that does happen implies every backend step (commit included)
succeeded, with the stamped document as the payload. -/
theorem save_broadcast_once_after_commit (dl : Dialect) (f : SaveFaults)
    (now : Int) (db : DbState) (pid : String) (doc : Doc) :
    (save_session dl f now db pid doc).ws.length ≤ 1
    ∧ (save_session dl f now db pid doc).live.length ≤ 1
    ∧ ((f.connOk = false ∨ f.dumpsOk = false ∨ f.cursorOk = false
        ∨ f.execOk = false ∨ f.commitOk = false) →
        (save_session dl f now db pid doc).ws = []
        ∧ (save_session dl f now db pid doc).live = [])
    ∧ ((save_session dl f now db pid doc).ws ≠ [] →
        f = saveOk
        ∧ (save_session dl f now db pid doc).ws
            = [(pid, setKey doc "last_modified" (Json.num now))]
        ∧ (save_session dl f now db pid doc).live
            = [(pid, setKey doc "last_modified" (Json.num now))]) := by
  rcases f with ⟨c, du, cu, e, co⟩
  cases c <;> cases du <;> cases cu <;> cases e <;> cases co <;>
    simp [save_session, saveOk]

/-- C5 witness: with connection acquisition failing, no sink is dispatched. -/
theorem save_broadcast_once_after_commit_witness :
    (SaveFaults.mk false true true true true).connOk = false
    ∧ (save_session Dialect.mysql ⟨false, true, true, true, true⟩ 0 [] "p" []).ws = []
    ∧ (save_session Dialect.mysql ⟨false, true, true, true, true⟩ 0 [] "p" []).live = [] :=
  ⟨rfl, (save_broadcast_once_after_commit Dialect.mysql
    ⟨false, true, true, true, true⟩ 0 [] "p" []).2.2.1 (Or.inl rfl)⟩

/-- C6: evaluation of the code at the failing input.  On a MySQL handle with
`json.dumps` failing (line 56), the `except` clause swallows the original
error but the `finally` block (line 80) closes `cursor`, which was never
assigned (the assignment on line 57 comes after the failed line 56), so an
unbound-local `NameError` propagates to the caller — contradicting the claim
that no exception ever escapes `save_session`. -/
theorem save_session_raises_on_mysql_dumps_failure :
    (save_session Dialect.mysql ⟨true, false, true, true, true⟩ 0 [] "p"
      [("x", Json.null)]).raised = true := rfl

/-- C7 counterexample: the pool-uninitialized mysql case, the rejected-borrow
mysql case, and the unrecognized-scheme case all return the SAME `none`; the
three failure modes are not distinguishable by the caller. -/
theorem get_db_connection_collapse_cex :
    get_db_connection ⟨Scheme.mysql, false, true, true⟩ = none
    ∧ get_db_connection ⟨Scheme.mysql, true, false, true⟩ = none
    ∧ get_db_connection ⟨Scheme.other "postgres", true, true, true⟩ = none
    ∧ get_db_connection ⟨Scheme.mysql, false, true, true⟩
        = get_db_connection ⟨Scheme.other "postgres", true, true, true⟩ :=
  ⟨rfl, rfl, rfl, rfl⟩

/-- C7 amended: handle acquisition distinguishes its three failure modes only
in the log messages it emits; to the caller, an uninitialized pool, a borrow
rejected by the backend, and an unrecognized dialect all return the same
absent result `none`. -/
theorem get_db_connection_failures_all_none (e : ConnEnv) :
    (e.scheme = Scheme.mysql → e.poolReady = false → get_db_connection e = none)
    ∧ (e.scheme = Scheme.mysql → e.poolBorrowOk = false → get_db_connection e = none)
    ∧ (∀ s, e.scheme = Scheme.other s → get_db_connection e = none) := by
  refine ⟨fun h1 h2 => ?_, fun h1 h2 => ?_, fun s h1 => ?_⟩
  · simp [get_db_connection, h1, h2]
  · simp [get_db_connection, h1, h2]
  · simp [get_db_connection, h1]

/-- C7 witness: the amended behaviour at a concrete uninitialized pool. -/
theorem get_db_connection_failures_all_none_witness :
    (ConnEnv.mk Scheme.mysql false true true).scheme = Scheme.mysql
    ∧ (ConnEnv.mk Scheme.mysql false true true).poolReady = false
    ∧ get_db_connection ⟨Scheme.mysql, false, true, true⟩ = none :=
  ⟨rfl, rfl,
   (get_db_connection_failures_all_none ⟨Scheme.mysql, false, true, true⟩).1 rfl rfl⟩

/-- C8: flagging a player with no stored row performs no write and dispatches
no broadcast: the table is unchanged and a subsequent `get_session` still
returns absent. -/
theorem flag_nonexistent_noop (dl : Dialect) (gf : GetFaults) (sf : SaveFaults)
    (now : Int) (db : DbState) (pid level reason : String)
    (h : dbLookup db pid = none) :
    (flag_player_for_punishment dl gf sf now db pid level reason).db = db
    ∧ (flag_player_for_punishment dl gf sf now db pid level reason).ws = []
    ∧ (flag_player_for_punishment dl gf sf now db pid level reason).live = []
    ∧ get_session gf (flag_player_for_punishment dl gf sf now db pid level reason).db pid = none := by
  have hg := get_session_none_of_lookup_none gf db pid h
  simp [flag_player_for_punishment, hg]

/-- C8 witness: flagging against an empty table is a no-op. -/
theorem flag_nonexistent_noop_witness :
    dbLookup ([] : DbState) "p" = none
    ∧ ((flag_player_for_punishment Dialect.mysql getOk saveOk 0 [] "p" "severe" "r").db = []
       ∧ (flag_player_for_punishment Dialect.mysql getOk saveOk 0 [] "p" "severe" "r").ws = []
       ∧ (flag_player_for_punishment Dialect.mysql getOk saveOk 0 [] "p" "severe" "r").live = []
       ∧ get_session getOk
           (flag_player_for_punishment Dialect.mysql getOk saveOk 0 [] "p" "severe" "r").db "p" = none) :=
  ⟨rfl, flag_nonexistent_noop Dialect.mysql getOk saveOk 0 [] "p" "severe" "r" rfl⟩

/-- C9: `save_session` mutates the caller's document object in place — after
any call that reaches the stamping step (a handle was acquired), the caller's
document carries the `last_modified` key — and `create_or_get_session` on a
fresh id returns the non-empty `[("last_modified", now)]` precisely because
it hands back the same empty dict it passed to `save_session`, mutated. -/
theorem save_mutates_caller_doc (dl : Dialect) (f : SaveFaults) (gf : GetFaults)
    (now : Int) (db : DbState) (pid : String) (doc : Doc)
    (hconn : f.connOk = true) (hfresh : dbLookup db pid = none) :
    (save_session dl f now db pid doc).doc = setKey doc "last_modified" (Json.num now)
    ∧ (create_or_get_session dl gf f now db pid).doc
        = setKey ([] : Doc) "last_modified" (Json.num now)
    ∧ setKey ([] : Doc) "last_modified" (Json.num now) ≠ ([] : Doc) := by
  have hg := get_session_none_of_lookup_none gf db pid hfresh
  rcases f with ⟨c, du, cu, e, co⟩
  simp only at hconn
  subst hconn
  refine ⟨?_, ?_, ?_⟩
  · cases du <;> cases cu <;> cases e <;> cases co <;> simp [save_session]
  · rw [create_or_get_session, hg]
    cases du <;> cases cu <;> cases e <;> cases co <;> simp [save_session]
  · simp [setKey]

/-- C9 witness: the mutation at a concrete fresh id and document. -/
theorem save_mutates_caller_doc_witness :
    (SaveFaults.mk true true true true true).connOk = true
    ∧ dbLookup ([] : DbState) "p" = none
    ∧ ((save_session Dialect.mysql saveOk 42 [] "p" [("x", Json.num 1)]).doc
         = setKey [("x", Json.num 1)] "last_modified" (Json.num 42)
       ∧ (create_or_get_session Dialect.mysql getOk saveOk 42 [] "p").doc
           = setKey ([] : Doc) "last_modified" (Json.num 42)
       ∧ setKey ([] : Doc) "last_modified" (Json.num 42) ≠ ([] : Doc)) :=
  ⟨rfl, rfl, save_mutates_caller_doc Dialect.mysql saveOk getOk 42 [] "p"
    [("x", Json.num 1)] rfl rfl⟩

/-- C10: a stored row whose blob is the literal text of the empty object is
treated by `flag_player_for_punishment` exactly like a nonexistent session:
`if not session` tests Python truthiness of the decoded document, the empty
dict is falsy, so no write happens, no broadcast is dispatched, and the
stored document still has no `pending_punishment` key. -/
theorem flag_empty_doc_noop (dl : Dialect) (gf : GetFaults) (sf : SaveFaults)
    (now : Int) (db : DbState) (pid level reason : String)
    (hconn : gf.connOk = true) (hq : gf.queryOk = true)
    (h : dbLookup db pid = some (Blob.valid [])) :
    get_session gf db pid = some ([] : Doc)
    ∧ (flag_player_for_punishment dl gf sf now db pid level reason).db = db
    ∧ (flag_player_for_punishment dl gf sf now db pid level reason).ws = []
    ∧ (flag_player_for_punishment dl gf sf now db pid level reason).live = []
    ∧ get_session gf (flag_player_for_punishment dl gf sf now db pid level reason).db pid
        = some ([] : Doc) := by
  have hg : get_session gf db pid = some ([] : Doc) := by
    simp [get_session, hconn, hq, h]
  refine ⟨hg, ?_⟩
  simp [flag_player_for_punishment, hg]

/-- C10 witness: flagging a concrete row holding the empty document. -/
theorem flag_empty_doc_noop_witness :
    (GetFaults.mk true true).connOk = true
    ∧ (GetFaults.mk true true).queryOk = true
    ∧ dbLookup [("p", Blob.valid [])] "p" = some (Blob.valid [])
    ∧ (get_session getOk [("p", Blob.valid [])] "p" = some ([] : Doc)
       ∧ (flag_player_for_punishment Dialect.mysql getOk saveOk 0
            [("p", Blob.valid [])] "p" "severe" "r").db = [("p", Blob.valid [])]
       ∧ (flag_player_for_punishment Dialect.mysql getOk saveOk 0
            [("p", Blob.valid [])] "p" "severe" "r").ws = []
       ∧ (flag_player_for_punishment Dialect.mysql getOk saveOk 0
            [("p", Blob.valid [])] "p" "severe" "r").live = []
       ∧ get_session getOk
           (flag_player_for_punishment Dialect.mysql getOk saveOk 0
             [("p", Blob.valid [])] "p" "severe" "r").db "p" = some ([] : Doc)) :=
  ⟨rfl, rfl, rfl, flag_empty_doc_noop Dialect.mysql getOk saveOk 0
    [("p", Blob.valid [])] "p" "severe" "r" rfl rfl rfl⟩

end TenCycles
